import Mathlib

/-!
Verification of the cosm-orc contract-orchestration library.

The Rust source is shallowly embedded: hash maps become association lists
(first-match lookup, matching `std::collections::HashMap` observable
behaviour for the operations used), `Result` becomes `Except`, network
calls of the chain client become function-valued parameters whose
invocations are recorded in an explicit call list, and machine integers
become `Nat` (no arithmetic in the embedded code can overflow a `u64`
other than where noted).
-/

set_option autoImplicit false

namespace CosmOrc

/-! ## Generic association-list operations

`lookupFirst` models `HashMap::get` (keys are unique in a real hash map,
so first-match lookup agrees with it). `updateOrInsert d f m k` models
`map.entry(k).or_insert(d)` followed by a field update `f` on the entry,
and `hashInsert` models `HashMap::insert` (overwrite when present). -/

def lookupFirst {α : Type} : List (String × α) → String → Option α
  | [], _ => none
  | (k, v) :: rest, n => if k = n then some v else lookupFirst rest n

def updateOrInsert {α : Type} (d : α) (f : α → α) : List (String × α) → String → List (String × α)
  | [], n => [(n, f d)]
  | (k, v) :: rest, n =>
    if k = n then (k, f v) :: rest else (k, v) :: updateOrInsert d f rest n

def hashInsert {α : Type} (m : List (String × α)) (k : String) (v : α) : List (String × α) :=
  updateOrInsert v (fun _ => v) m k

/-! ## Contract deployment tracker (`src/orchestrator/deploy.rs`) -/

/-- `ContractMapError` from `src/orchestrator/error.rs`. -/
inductive ContractMapError where
  | NotStored (name : String)
  | NotDeployed (name : String)
deriving DecidableEq

/-- `DeployInfo` from `src/orchestrator/deploy.rs`: one contract's
deployment state. -/
structure DeployInfo where
  code_id : Option Nat
  address : Option String
deriving DecidableEq

/-- `ContractMap` from `src/orchestrator/deploy.rs`: the inner
`HashMap<ContractName, DeployInfo>` as an association list. -/
abbrev ContractMap := List (String × DeployInfo)

/-- `ContractMap::register_contract`:
`self.map.entry(name).or_insert(DeployInfo { code_id: None, address: None }).code_id = Some(code_id)`. -/
def register_contract (m : ContractMap) (name : String) (code_id : Nat) : ContractMap :=
  updateOrInsert { code_id := none, address := none }
    (fun info => { info with code_id := some code_id }) m name

/-- `ContractMap::add_address`:
`self.map.entry(name).or_insert(DeployInfo { code_id: None, address: None }).address = Some(address)`.
The Rust function returns `Result<(), ContractMapError>` but is always `Ok`,
so only the updated map is modelled. -/
def add_address (m : ContractMap) (name : String) (address : String) : ContractMap :=
  updateOrInsert { code_id := none, address := none }
    (fun info => { info with address := some address }) m name

/-- `ContractMap::code_id`: `map.get(name)` must yield an entry whose
`code_id` is set, each failure being `NotStored`. -/
def code_id (m : ContractMap) (name : String) : Except ContractMapError Nat :=
  match lookupFirst m name with
  | none => .error (.NotStored name)
  | some info =>
    match info.code_id with
    | none => .error (.NotStored name)
    | some c => .ok c

/-- `ContractMap::address`: a missing entry is `NotStored`, an entry with
`address: None` is `NotDeployed`. -/
def address (m : ContractMap) (name : String) : Except ContractMapError String :=
  match lookupFirst m name with
  | none => .error (.NotStored name)
  | some info =>
    match info.address with
    | none => .error (.NotDeployed name)
    | some a => .ok a

/-! ## Chain response types (`src/client/chain_res.rs`, cosmrs/tendermint) -/

/-- `tendermint::abci::Code`: `Ok` or a non-zero error code. -/
inductive Code where
  | Ok
  | Err (code : Nat)
deriving DecidableEq

/-- `Code::is_err`. -/
def Code.is_err : Code → Bool
  | .Ok => false
  | .Err _ => true

/-- A `tendermint::abci::Event` attribute: a key/value tag pair. -/
structure EventAttribute where
  key : String
  value : String
deriving DecidableEq

/-- `tendermint::abci::Event`: a type string and a list of attributes. -/
structure Event where
  type_str : String
  attributes : List EventAttribute
deriving DecidableEq

/-- `ChainResponse` from `src/client/chain_res.rs` (bytes as `List Nat`). -/
structure ChainResponse where
  code : Code
  data : Option (List Nat)
  log : String
  gas_wanted : Nat
  gas_used : Nat
deriving DecidableEq

/-- `tendermint` `TxResult` (the fields cosm-orc reads): the per-phase
result carried in `check_tx` / `deliver_tx` of a broadcast-commit
response. -/
structure TxResult where
  code : Code
  data : Option (List Nat)
  log : String
  gas_wanted : Nat
  gas_used : Nat
  events : List Event
deriving DecidableEq

/-- `impl From<TxResult> for ChainResponse` from `src/client/chain_res.rs`. -/
def TxResult.toChainResponse (res : TxResult) : ChainResponse :=
  { code := res.code, data := res.data, log := res.log,
    gas_wanted := res.gas_wanted, gas_used := res.gas_used }

/-- `tendermint_rpc` broadcast-commit `Response`: the fields cosm-orc
reads are the two phase results. -/
structure TxCommitResponse where
  check_tx : TxResult
  deliver_tx : TxResult
deriving DecidableEq

/-- `ClientError` from `src/client/error.rs` (the variants relevant to the
embedded operations; error payloads that are opaque foreign error objects
are modelled as message strings). -/
inductive ClientError where
  | CosmosSdk (res : ChainResponse)
  | Rpc (msg : String)
  | ProtoEncoding (msg : String)
  | Crypto (msg : String)
  | ChainId (chain_id : String)
  | Denom (name : String)
  | AccountId (id : String)
deriving DecidableEq

/-! ## Gas profiler (`src/orchestrator/gas_profiler.rs`) -/

/-- `CommandType` from `src/orchestrator/gas_profiler.rs`. -/
inductive CommandType where
  | Store
  | Instantiate
  | Query
  | Execute
  | Migrate
deriving DecidableEq

/-- The Rust `Debug` rendering used in `format!("{op_type:?}__{op_name}")`. -/
def CommandType.debugFmt : CommandType → String
  | .Store => "Store"
  | .Instantiate => "Instantiate"
  | .Query => "Query"
  | .Execute => "Execute"
  | .Migrate => "Migrate"

/-- `std::panic::Location` (file and line of the caller). -/
structure Location where
  file : String
  line : Nat
deriving DecidableEq

/-- `GasReport` from `src/orchestrator/gas_profiler.rs`. -/
structure GasReport where
  gas_wanted : Nat
  gas_used : Nat
  file_name : String
  line_number : Nat
deriving DecidableEq

/-- Inner map of `Report`: op key → `GasReport`. -/
abbrev InnerReport := List (String × GasReport)

/-- `Report = HashMap<String, HashMap<String, GasReport>>`. -/
abbrev Report := List (String × InnerReport)

/-- `GasProfiler` from `src/orchestrator/gas_profiler.rs`. -/
structure GasProfiler where
  report : Report
deriving DecidableEq

/-- The `ChainTxResponse` passed to `instrument`; the source reads only
its `gas_used` and `gas_wanted` fields, which `ChainResponse` carries. -/
abbrev ChainTxResponse := ChainResponse

/-- `GasProfiler::instrument`: a `Query` op returns without touching the
report; otherwise `op_key = format!("{op_type:?}__{op_name}")` and the
entry for `contract` gets `op_key` inserted (overwriting) with the
response's gas numbers and the caller location. -/
def GasProfiler.instrument (p : GasProfiler) (contract op_name : String)
    (op_type : CommandType) (response : ChainTxResponse) (caller_loc : Location) :
    GasProfiler :=
  if op_type = CommandType.Query then p
  else
    let op_key := op_type.debugFmt ++ "__" ++ op_name
    { report :=
        updateOrInsert []
          (fun m =>
            hashInsert m op_key
              { gas_used := response.gas_used, gas_wanted := response.gas_wanted,
                file_name := caller_loc.file, line_number := caller_loc.line })
          p.report contract }

/-- Lookup in a profiler report: outer key `contract`, inner key `op_key`. -/
def reportGet (r : Report) (contract op_key : String) : Option GasReport :=
  match lookupFirst r contract with
  | none => none
  | some inner => lookupFirst inner op_key

/-! ## Transaction pipeline tail (`src/client/cosmos.rs`, `send_tx`) -/

/-- `send_tx` from `src/client/cosmos.rs`, from the broadcast step on.
The account lookup, fee simulation, signing and the
`broadcast_commit` network call are chain/crypto effects; their combined
outcome is the `broadcast` parameter. On an `Ok` response the two phase
codes are checked in order — `check_tx` first, then `deliver_tx` — and a
non-OK code becomes a `CosmosSdk` error carrying that phase's converted
`ChainResponse`. -/
def send_tx (broadcast : Except ClientError TxCommitResponse) :
    Except ClientError TxCommitResponse :=
  match broadcast with
  | .error e => .error e
  | .ok tx_commit_response =>
    if tx_commit_response.check_tx.code.is_err then
      .error (.CosmosSdk tx_commit_response.check_tx.toChainResponse)
    else if tx_commit_response.deliver_tx.code.is_err then
      .error (.CosmosSdk tx_commit_response.deliver_tx.toChainResponse)
    else .ok tx_commit_response

/-! ## Fee simulation arithmetic (`src/client/cosmos.rs`, `simulate_gas_fee`) -/

/-- A `cosmrs::Coin` (denomination and amount). -/
structure Coin where
  denom : String
  amount : Nat
deriving DecidableEq

/-- `cosmrs::tx::Fee` (the fields cosm-orc sets). -/
structure Fee where
  amount : List Coin
  gas_limit : Nat
deriving DecidableEq

/-- `Fee::from_amount_and_gas`. -/
def Fee.from_amount_and_gas (amount : Coin) (gas_limit : Nat) : Fee :=
  { amount := [amount], gas_limit := gas_limit }

/-- `⌊log2 n⌋` by structural recursion on a fuel bound (`n` itself
suffices, as the argument halves each step), so the kernel can evaluate
it on literals. -/
def log2Fuel : Nat → Nat → Nat
  | 0, _ => 0
  | fuel + 1, n => if 2 ≤ n then log2Fuel fuel (n / 2) + 1 else 0

/-- `⌊log2 n⌋` for `n ≥ 1` (0 for `n = 0`). -/
def natLog2 (n : Nat) : Nat := log2Fuel n n

/-- Whether `2 ^ k ≤ a / b` for positive naturals `a`, `b` and an integer
exponent `k`, decided in integer arithmetic. -/
def pow2Le (k : Int) (a b : Nat) : Bool :=
  if 0 ≤ k then decide (b * 2 ^ k.toNat ≤ a) else decide (b ≤ a * 2 ^ (-k).toNat)

/-- `⌊log2 (a / b)⌋` for positive naturals `a`, `b`: the bit-length
estimate is off by at most one, so test the exact candidates. -/
def floorLog2 (a b : Nat) : Int :=
  let c : Int := (natLog2 a : Int) - (natLog2 b : Int)
  if pow2Le (c + 1) a b then c + 1
  else if pow2Le c a b then c
  else c - 1

/-- Nearest integer to `a / b` with ties to even (the IEEE-754 default
rounding of a half-way significand). -/
def roundHalfEven (a b : Nat) : Nat :=
  let q := a / b
  let r := a % b
  if 2 * r < b then q
  else if b < 2 * r then q + 1
  else if q % 2 = 0 then q else q + 1

/-- `m * 2 ^ e` as a rational, for a natural significand and integer
exponent. -/
def scaleByPow2 (m : Nat) (e : Int) : Rat :=
  if 0 ≤ e then ((m * 2 ^ e.toNat : Nat) : Rat)
  else (m : Rat) / ((2 ^ (-e).toNat : Nat) : Rat)

/-- IEEE-754 binary64 rounding (round to nearest, ties to even) of a
rational: the value Rust's `f64` arithmetic produces for each exact
intermediate result, modelled for non-negative values in the normal
finite range — the only values the fee computation produces (zero maps
to zero). The significand is cut to 53 bits at the exponent fixed by
`⌊log2 x⌋`. -/
def roundDouble (x : Rat) : Rat :=
  if x ≤ 0 then 0
  else
    let a := x.num.toNat
    let b := x.den
    let e : Int := floorLog2 a b - 52
    let m : Nat :=
      if 0 ≤ e then roundHalfEven a (b * 2 ^ e.toNat)
      else roundHalfEven (a * 2 ^ (-e).toNat) b
    scaleByPow2 m e

/-- The fee arithmetic at the end of `simulate_gas_fee` in
`src/client/cosmos.rs`, with the `f64` semantics made explicit:
the configured `gas_adjustment` / `gas_prices` are the doubles nearest
the configured decimal values, `gas_used as f64` rounds the simulated
gas, each `*` is a correctly-rounded double multiplication
(`roundDouble` of the exact product), `.ceil()` on a double in range is
exact, and the `as u64` casts truncate (saturating at 0 for negatives,
as `Int.toNat` does). So
`gas_limit = (gas_used as f64 * gas_adjustment).ceil()` and
`amount = ((gas_limit * gas_prices).ceil() as u64)`. -/
def simulate_gas_fee (gas_used : Nat) (gas_adjustment gas_prices : Rat)
    (denom : String) : Fee :=
  let adj := roundDouble gas_adjustment
  let price := roundDouble gas_prices
  let gu := roundDouble (gas_used : Rat)
  let gas_limit : Rat := ((Int.ceil (roundDouble (gu * adj)) : Int) : Rat)
  Fee.from_amount_and_gas
    { denom := denom, amount := (Int.ceil (roundDouble (gas_limit * price))).toNat }
    (Int.ceil gas_limit).toNat

/-- The spec's fee formula, stated over exact rationals and named for
comparison with the source's f64 computation `simulate_gas_fee`:
`gas_limit = ceil(gas_used * gas_adjustment)` and
`amount = ceil(gas_limit * gas_prices)`. -/
def simulate_gas_fee_spec_model (gas_used : Nat) (gas_adjustment gas_prices : Rat)
    (denom : String) : Fee :=
  let gas_limit : Rat := ((Int.ceil ((gas_used : Rat) * gas_adjustment) : Int) : Rat)
  Fee.from_amount_and_gas
    { denom := denom, amount := (Int.ceil (gas_limit * gas_prices)).toNat }
    (Int.ceil gas_limit).toNat

/-! ## Event extraction (`src/client/cosmos.rs` `find_event`,
`src/client/cosmwasm.rs` `store` / `instantiate`) -/

/-- The loop body of `find_event`: first event of the list whose
`type_str` equals `key_name`. -/
def findEventList (events : List Event) (key_name : String) : Option Event :=
  match events with
  | [] => none
  | e :: rest => if e.type_str = key_name then some e else findEventList rest key_name

/-- `find_event` from `src/client/cosmos.rs`: linear scan over
`res.deliver_tx.events`. -/
def find_event (res : TxCommitResponse) (key_name : String) : Option Event :=
  findEventList res.deliver_tx.events key_name

/-- `attributes.iter().find(|a| a.key == k)`: first attribute with the
given key. -/
def findAttr (attrs : List EventAttribute) (key : String) : Option EventAttribute :=
  match attrs with
  | [] => none
  | a :: rest => if a.key = key then some a else findAttr rest key

/-- Decimal value of a digit string, most significant first. -/
def digitsVal (cs : List Char) (acc : Nat) : Nat :=
  match cs with
  | [] => acc
  | c :: rest => digitsVal rest (acc * 10 + (c.toNat - 48))

/-- Rust `str::parse::<u64>`: an optional leading `+`, then one or more
decimal digits, rejecting the empty string, non-digit characters and
values ≥ 2^64. -/
def parse_u64 (s : String) : Option Nat :=
  let chars :=
    match s.data with
    | '+' :: rest => rest
    | cs => cs
  if chars ≠ [] ∧ chars.all Char.isDigit then
    let n := digitsVal chars 0
    if n < 2 ^ 64 then some n else none
  else none

/-- The `code_id` extraction in `CosmWasmClient::store`
(`src/client/cosmwasm.rs`): find the `store_code` event, its `code_id`
attribute, and parse the value as `u64`. Each Rust `.unwrap()` panics on
`None`; the panic is modelled as `none`. -/
def store_extract_code_id (tx_res : TxCommitResponse) : Option Nat :=
  match find_event tx_res "store_code" with
  | none => none
  | some res =>
    match findAttr res.attributes "code_id" with
    | none => none
    | some a => parse_u64 a.value

/-- The address extraction in `CosmWasmClient::instantiate`
(`src/client/cosmwasm.rs`): find the `instantiate` event and its
`_contract_address` attribute. The Rust `.unwrap()` panic is modelled as
`none`. -/
def instantiate_extract_address (tx_res : TxCommitResponse) : Option String :=
  match find_event tx_res "instantiate" with
  | none => none
  | some res =>
    match findAttr res.attributes "_contract_address" with
    | none => none
    | some a => some a.value

/-! ## Block poller (`src/client/cosmwasm.rs`, `poll_for_n_blocks`) -/

/-- `tendermint_rpc` error detail as far as the poller inspects it:
`ErrorDetail::Serde(_)` versus everything else. -/
inductive RpcErrorDetail where
  | Serde (msg : String)
  | OtherDetail (msg : String)
deriving DecidableEq

/-- `matches!(e.detail(), ErrorDetail::Serde(_))`. -/
def RpcErrorDetail.isSerde : RpcErrorDetail → Bool
  | .Serde _ => true
  | .OtherDetail _ => false

/-- One `latest_block()` call's outcome: an error or the block height. -/
abbrev LatestBlockResult := Except RpcErrorDetail Nat

/-- Outcome of the embedded poller: success or an error, each recording
how many `latest_block` queries were issued, or exhaustion of the
supplied query results. -/
inductive PollOutcome where
  | ok (queries_made : Nat)
  | err (e : RpcErrorDetail) (queries_made : Nat)
  | outOfFuel
deriving DecidableEq

/-- The `while curr_height < target_height` loop of `poll_for_n_blocks`:
sleep 500ms, query `latest_block` again, update `curr_height`. -/
def pollLoop (target : Nat) : Nat → List LatestBlockResult → Nat → PollOutcome
  | curr, blocks, used =>
    if curr < target then
      match blocks with
      | [] => .outOfFuel
      | .error e :: _ => .err e (used + 1)
      | .ok h :: rest => pollLoop target h rest (used + 1)
    else .ok used

/-- The first `latest_block` call of the main path of
`poll_for_n_blocks`: capture `curr_height`, set
`target_height = curr_height + n`, and enter the wait loop. -/
def pollStart (blocks : List LatestBlockResult) (n : Nat) (used : Nat) : PollOutcome :=
  match blocks with
  | [] => .outOfFuel
  | .error e :: _ => .err e (used + 1)
  | .ok curr_height :: rest => pollLoop (curr_height + n) curr_height rest (used + 1)

/-- The `while let Err(e) = latest_block()` health loop of the
`is_first_block` branch: retry (after a 500ms sleep) on `Serde` errors,
propagate any other error, and fall through to the main path on the
first successful call (whose result is discarded). -/
def firstBlockWait (blocks : List LatestBlockResult) (n : Nat) (used : Nat) : PollOutcome :=
  match blocks with
  | [] => .outOfFuel
  | .error e :: rest =>
    if e.isSerde then firstBlockWait rest n (used + 1) else .err e (used + 1)
  | .ok _ :: rest => pollStart rest n (used + 1)

/-- `CosmWasmClient::poll_for_n_blocks` from `src/client/cosmwasm.rs`.
`healthy` is the outcome of `wait_until_healthy` and `blocks` the
successive outcomes of `latest_block()` calls. -/
def poll_for_n_blocks (healthy : Except RpcErrorDetail Unit)
    (blocks : List LatestBlockResult) (n : Nat) (is_first_block : Bool) : PollOutcome :=
  if is_first_block then
    match healthy with
    | .error e => .err e 0
    | .ok _ => firstBlockWait blocks n 0
  else
    pollStart blocks n 0

/-! ## Orchestrator internal API (`src/orchestrator/internal_api.rs`) -/

/-- `ProcessError` from `src/orchestrator/error.rs` (the variants the
embedded operations can produce). -/
inductive ProcessError where
  | JsonSerialize (msg : String)
  | ContractMapE (source : ContractMapError)
  | ClientE (source : ClientError)
deriving DecidableEq

/-- `InstantiateResponse` from `src/client/cosmwasm.rs`. -/
structure InstantiateResponse where
  address : String
  res : ChainResponse
deriving DecidableEq

/-- `ExecResponse` from `src/client/cosmwasm.rs`. -/
structure ExecResponse where
  res : ChainResponse
deriving DecidableEq

/-- `QueryResponse` from `src/client/cosmwasm.rs`. -/
structure QueryResponse where
  res : ChainResponse
deriving DecidableEq

/-- `MigrateResponse` from `src/client/cosmwasm.rs`. -/
structure MigrateResponse where
  res : ChainResponse
deriving DecidableEq

/-- One network invocation of the chain client, with the arguments the
orchestrator passed. -/
inductive NetCall where
  | instantiateCall (code_id : Nat) (payload : List Nat)
  | executeCall (address : String) (payload : List Nat)
  | queryCall (address : String) (payload : List Nat)
  | migrateCall (address : String) (new_code_id : Nat) (payload : List Nat)
deriving DecidableEq

/-- The `CosmWasmClient` operations invoked by the internal API, as
outcome functions of the arguments the orchestrator passes (keys, funds
and admin are threaded through opaquely inside these functions). -/
structure CosmWasmClientModel where
  instantiate : Nat → List Nat → Except ClientError InstantiateResponse
  execute : String → List Nat → Except ClientError ExecResponse
  query : String → List Nat → Except ClientError QueryResponse
  migrate : String → Nat → List Nat → Except ClientError MigrateResponse

/-- `CallLoc` as used by `internal_api.rs` (caller file/line). -/
abbrev CallLoc := Location

/-- `internal_api::instantiate`: resolve `code_id` from the map, then
serialize the message (`msg_json` is the outcome of
`serde_json::to_vec(msg)`), then call the client; on success register
the returned address and instrument the profiler. The fourth component
lists the chain-client calls made. -/
def internal_instantiate (contract_map : ContractMap) (client : CosmWasmClientModel)
    (gas_profiler : Option GasProfiler) (contract_name op_name : String)
    (msg_json : Except String (List Nat)) (caller_loc : CallLoc) :
    Except ProcessError InstantiateResponse × ContractMap × Option GasProfiler × List NetCall :=
  match code_id contract_map contract_name with
  | .error e => (.error (.ContractMapE e), contract_map, gas_profiler, [])
  | .ok cid =>
    match msg_json with
    | .error e => (.error (.JsonSerialize e), contract_map, gas_profiler, [])
    | .ok payload =>
      match client.instantiate cid payload with
      | .error e =>
        (.error (.ClientE e), contract_map, gas_profiler, [.instantiateCall cid payload])
      | .ok res =>
        (.ok res,
         add_address contract_map contract_name res.address,
         gas_profiler.map fun p =>
           p.instrument contract_name op_name .Instantiate res.res caller_loc,
         [.instantiateCall cid payload])

/-- `internal_api::execute`: resolve the address, serialize, call the
client, instrument on success (the map is never modified). -/
def internal_execute (contract_map : ContractMap) (client : CosmWasmClientModel)
    (gas_profiler : Option GasProfiler) (contract_name op_name : String)
    (msg_json : Except String (List Nat)) (caller_loc : CallLoc) :
    Except ProcessError ExecResponse × ContractMap × Option GasProfiler × List NetCall :=
  match address contract_map contract_name with
  | .error e => (.error (.ContractMapE e), contract_map, gas_profiler, [])
  | .ok addr =>
    match msg_json with
    | .error e => (.error (.JsonSerialize e), contract_map, gas_profiler, [])
    | .ok payload =>
      match client.execute addr payload with
      | .error e =>
        (.error (.ClientE e), contract_map, gas_profiler, [.executeCall addr payload])
      | .ok res =>
        (.ok res, contract_map,
         gas_profiler.map fun p =>
           p.instrument contract_name op_name .Execute res.res caller_loc,
         [.executeCall addr payload])

/-- `internal_api::query`: resolve the address, serialize, call the
client; the map is read-only and no profiler is involved. -/
def internal_query (contract_map : ContractMap) (client : CosmWasmClientModel)
    (contract_name : String) (msg_json : Except String (List Nat)) :
    Except ProcessError QueryResponse × List NetCall :=
  match address contract_map contract_name with
  | .error e => (.error (.ContractMapE e), [])
  | .ok addr =>
    match msg_json with
    | .error e => (.error (.JsonSerialize e), [])
    | .ok payload =>
      match client.query addr payload with
      | .error e => (.error (.ClientE e), [.queryCall addr payload])
      | .ok res => (.ok res, [.queryCall addr payload])

/-- `internal_api::migrate`: resolve the address, serialize, call the
client; on success re-register the contract under `new_code_id` and
instrument the profiler. -/
def internal_migrate (contract_map : ContractMap) (client : CosmWasmClientModel)
    (gas_profiler : Option GasProfiler) (contract_name : String) (new_code_id : Nat)
    (op_name : String) (msg_json : Except String (List Nat)) (caller_loc : CallLoc) :
    Except ProcessError MigrateResponse × ContractMap × Option GasProfiler × List NetCall :=
  match address contract_map contract_name with
  | .error e => (.error (.ContractMapE e), contract_map, gas_profiler, [])
  | .ok addr =>
    match msg_json with
    | .error e => (.error (.JsonSerialize e), contract_map, gas_profiler, [])
    | .ok payload =>
      match client.migrate addr new_code_id payload with
      | .error e =>
        (.error (.ClientE e), contract_map, gas_profiler, [.migrateCall addr new_code_id payload])
      | .ok res =>
        (.ok res,
         register_contract contract_map contract_name new_code_id,
         gas_profiler.map fun p =>
           p.instrument contract_name op_name .Migrate res.res caller_loc,
         [.migrateCall addr new_code_id payload])

/-- A stub chain client whose every operation fails with an `Rpc` error;
used to evaluate fail-fast properties on concrete inputs. -/
def failingClient : CosmWasmClientModel :=
  { instantiate := fun _ _ => .error (.Rpc "down")
    execute := fun _ _ => .error (.Rpc "down")
    query := fun _ _ => .error (.Rpc "down")
    migrate := fun _ _ _ => .error (.Rpc "down") }

/-! ## Concrete fixtures (used to evaluate the theorems on closed inputs) -/

/-- A deployed contract entry: stored under code id 1337 at `addr1`. -/
def sampleDeployMap : ContractMap :=
  [("cw_test", { code_id := some 1337, address := some "addr1" })]

/-- A successful chain response with concrete gas numbers. -/
def sampleChainRes : ChainResponse :=
  { code := .Ok, data := none, log := "", gas_wanted := 200, gas_used := 100 }

/-- A concrete caller location. -/
def sampleLoc : Location := { file := "tests/demo.rs", line := 42 }

/-- A successful per-phase transaction result. -/
def okTx : TxResult :=
  { code := .Ok, data := none, log := "", gas_wanted := 2, gas_used := 1, events := [] }

/-- A rejected per-phase transaction result. -/
def errTx : TxResult :=
  { code := .Err 11, data := none, log := "out of gas", gas_wanted := 2, gas_used := 3,
    events := [] }

/-- A `store_code` event carrying `code_id = "42"`. -/
def storeEvent : Event :=
  { type_str := "store_code", attributes := [{ key := "code_id", value := "42" }] }

/-! ## Helper lemmas -/

theorem lookupFirst_updateOrInsert {α : Type} (d : α) (f : α → α) (m : List (String × α))
    (n n' : String) :
    lookupFirst (updateOrInsert d f m n) n' =
      if n' = n then some (f ((lookupFirst m n).getD d)) else lookupFirst m n' := by
  induction m with
  | nil =>
    by_cases h : n' = n
    · subst h; simp [updateOrInsert, lookupFirst]
    · simp [updateOrInsert, lookupFirst, h, Ne.symm h]
  | cons kv rest ih =>
    obtain ⟨k, v⟩ := kv
    by_cases hk : k = n
    · subst hk
      by_cases h : n' = k
      · subst h; simp [updateOrInsert, lookupFirst]
      · simp [updateOrInsert, lookupFirst, h, Ne.symm h]
    · by_cases h : k = n'
      · subst h
        simp [updateOrInsert, lookupFirst, hk, Ne.symm hk]
      · simp [updateOrInsert, lookupFirst, hk, h, ih]

theorem updateOrInsert_absorb {α : Type} (d1 d2 : α) (f1 : α → α) (v2 : α)
    (m : List (String × α)) (k : String) :
    updateOrInsert d2 (fun _ => v2) (updateOrInsert d1 f1 m k) k =
      updateOrInsert d2 (fun _ => v2) m k := by
  induction m with
  | nil => simp [updateOrInsert]
  | cons kv rest ih =>
    obtain ⟨k0, v0⟩ := kv
    by_cases h : k0 = k <;> simp [updateOrInsert, h, ih]

theorem updateOrInsert_comp {α : Type} (d : α) (f g : α → α)
    (m : List (String × α)) (k : String) :
    updateOrInsert d f (updateOrInsert d g m k) k =
      updateOrInsert d (fun x => f (g x)) m k := by
  induction m with
  | nil => simp [updateOrInsert]
  | cons kv rest ih =>
    obtain ⟨k0, v0⟩ := kv
    by_cases h : k0 = k <;> simp [updateOrInsert, h, ih]

theorem findEventList_none_iff (evs : List Event) (key : String) :
    findEventList evs key = none ↔ ∀ e ∈ evs, e.type_str ≠ key := by
  induction evs with
  | nil => simp [findEventList]
  | cons e rest ih =>
    by_cases h : e.type_str = key <;> simp [findEventList, h, ih]

theorem findEventList_some_iff (evs : List Event) (key : String) (ev : Event) :
    findEventList evs key = some ev ↔
      ev.type_str = key ∧
      ∃ pre post, evs = pre ++ ev :: post ∧ ∀ e ∈ pre, e.type_str ≠ key := by
  induction evs with
  | nil => simp [findEventList]
  | cons e rest ih =>
    by_cases h : e.type_str = key
    · simp only [findEventList, if_pos h]
      constructor
      · intro heq
        obtain rfl : e = ev := by injection heq
        exact ⟨h, [], rest, rfl, by simp⟩
      · rintro ⟨hkey, pre, post, hdec, hpre⟩
        cases pre with
        | nil =>
          injection hdec with h1 _
          exact congrArg some h1
        | cons p ps =>
          injection hdec with h1 _
          exact absurd h (h1 ▸ hpre p (by simp))
    · simp only [findEventList, if_neg h]
      rw [ih]
      constructor
      · rintro ⟨hkey, pre, post, hdec, hpre⟩
        refine ⟨hkey, e :: pre, post, by rw [hdec]; rfl, ?_⟩
        intro x hx
        rcases List.mem_cons.mp hx with rfl | hx
        · exact h
        · exact hpre x hx
      · rintro ⟨hkey, pre, post, hdec, hpre⟩
        cases pre with
        | nil =>
          injection hdec with h1 _
          exact absurd (h1 ▸ hkey) h
        | cons p ps =>
          injection hdec with h1 h2
          exact ⟨hkey, ps, post, h2, fun x hx => hpre x (by simp [hx])⟩

/-! ## Claim theorems -/

/-- C2: for every contract name and every `ContractMap` state, `code_id`
fails with `NotStored` exactly when no entry exists or the entry's
`code_id` field is unset, and otherwise returns the stored code id;
`address` fails with `NotStored` exactly when no entry exists, with
`NotDeployed` exactly when the entry exists but its `address` field is
null, and otherwise returns the stored address. -/
theorem contractMap_lookup_spec (m : ContractMap) (n : String) :
    (code_id m n = .error (.NotStored n) ↔
      lookupFirst m n = none ∨ ∃ i, lookupFirst m n = some i ∧ i.code_id = none) ∧
    (∀ c : Nat, code_id m n = .ok c ↔
      ∃ i, lookupFirst m n = some i ∧ i.code_id = some c) ∧
    (address m n = .error (.NotStored n) ↔ lookupFirst m n = none) ∧
    (address m n = .error (.NotDeployed n) ↔
      ∃ i, lookupFirst m n = some i ∧ i.address = none) ∧
    (∀ a : String, address m n = .ok a ↔
      ∃ i, lookupFirst m n = some i ∧ i.address = some a) := by
  unfold code_id address
  cases h : lookupFirst m n with
  | none => simp
  | some i =>
    cases hc : i.code_id <;> cases ha : i.address <;> simp [hc, ha]

/-- C2 witness: on the empty map, `address` fails with `NotStored`. -/
theorem contractMap_lookup_spec_witness :
    lookupFirst ([] : ContractMap) "cw_test" = none ∧
    address ([] : ContractMap) "cw_test" = .error (.NotStored "cw_test") :=
  ⟨rfl, ((contractMap_lookup_spec [] "cw_test").2.2.1).mpr rfl⟩

/-- C3: after `add_address n a` then `register_contract n c` both reads
succeed with the registered values; `register_contract` only ever writes
the `code_id` field of the entry it touches (preserving any stored
address, in particular across a migrate re-registration) and
`add_address` only ever writes the `address` field. -/
theorem register_add_independent (m : ContractMap) (n n' a : String) (c : Nat) :
    code_id (register_contract (add_address m n a) n c) n = .ok c ∧
    address (register_contract (add_address m n a) n c) n = .ok a ∧
    lookupFirst (register_contract m n c) n' =
      (if n' = n then
        some { code_id := some c, address := (lookupFirst m n).bind DeployInfo.address }
       else lookupFirst m n') ∧
    lookupFirst (add_address m n a) n' =
      (if n' = n then
        some { code_id := (lookupFirst m n).bind DeployInfo.code_id, address := some a }
       else lookupFirst m n') := by
  refine ⟨?_, ?_, ?_, ?_⟩
  · simp [code_id, register_contract, add_address, lookupFirst_updateOrInsert]
  · simp [address, register_contract, add_address, lookupFirst_updateOrInsert]
  · rw [register_contract, lookupFirst_updateOrInsert]
    by_cases h : n' = n
    · cases hl : lookupFirst m n <;> simp [h, hl]
    · simp [h]
  · rw [add_address, lookupFirst_updateOrInsert]
    by_cases h : n' = n
    · cases hl : lookupFirst m n <;> simp [h, hl]
    · simp [h]

/-- C4: `instrument` with a `Query` op leaves the profiler state
completely unchanged; for any other op exactly one entry is written,
under outer key `contract` and inner key `"{op_type}__{op_name}"`,
holding the response's gas numbers and the call site (every other key of
the report is untouched), and a second `instrument` with the same
contract and key overwrites the entry rather than accumulating a second
one. -/
theorem instrument_spec (p : GasProfiler) (contract op_name : String)
    (op_type : CommandType) (response r2 : ChainTxResponse) (loc loc2 : Location) :
    (op_type = CommandType.Query →
      p.instrument contract op_name op_type response loc = p) ∧
    (op_type ≠ CommandType.Query →
      reportGet (p.instrument contract op_name op_type response loc).report
          contract (op_type.debugFmt ++ "__" ++ op_name) =
        some { gas_used := response.gas_used, gas_wanted := response.gas_wanted,
               file_name := loc.file, line_number := loc.line } ∧
      (∀ c k, (c = contract → k ≠ op_type.debugFmt ++ "__" ++ op_name) →
        reportGet (p.instrument contract op_name op_type response loc).report c k =
          reportGet p.report c k) ∧
      (p.instrument contract op_name op_type response loc).instrument
          contract op_name op_type r2 loc2 =
        p.instrument contract op_name op_type r2 loc2) := by
  constructor
  · intro h
    simp [GasProfiler.instrument, h]
  · intro h
    refine ⟨?_, ?_, ?_⟩
    · simp [GasProfiler.instrument, h, reportGet, hashInsert, lookupFirst_updateOrInsert]
    · intro c k hck
      by_cases hc : c = contract
      · subst hc
        have hk : k ≠ op_type.debugFmt ++ "__" ++ op_name := hck rfl
        simp only [GasProfiler.instrument, if_neg h, reportGet, hashInsert,
          lookupFirst_updateOrInsert, if_pos rfl, if_neg hk]
        cases lookupFirst p.report c <;>
          simp [lookupFirst, lookupFirst_updateOrInsert, hk, Ne.symm hk]
      · simp [GasProfiler.instrument, h, reportGet, lookupFirst_updateOrInsert, hc]
    · simp only [GasProfiler.instrument, if_neg h]
      congr 1
      rw [updateOrInsert_comp]
      congr 1
      funext x
      simp only [hashInsert]
      exact updateOrInsert_absorb _ _ _ _ x _

/-- C4 witness: instrumenting an `Execute` op on an empty profiler stores
exactly the response's gas numbers and call site under
`("contract_a", "Execute__op")`. -/
theorem instrument_spec_witness :
    (CommandType.Execute ≠ CommandType.Query) ∧
    reportGet ((GasProfiler.mk []).instrument "contract_a" "op" .Execute
        sampleChainRes sampleLoc).report "contract_a" "Execute__op" =
      some { gas_used := 100, gas_wanted := 200, file_name := "tests/demo.rs",
             line_number := 42 } :=
  ⟨by decide,
   ((instrument_spec ⟨[]⟩ "contract_a" "op" .Execute sampleChainRes sampleChainRes
      sampleLoc sampleLoc).2 (by decide)).1⟩

/-- C5: `send_tx` checks the `check_tx` code first and the `deliver_tx`
code second; either being non-OK yields a `CosmosSdk` error carrying
that phase's full converted chain response, and an `Ok` result (the
unchanged commit response) is returned exactly when both codes are OK. -/
theorem send_tx_two_phase (r : TxCommitResponse) :
    (r.check_tx.code.is_err = true →
      send_tx (.ok r) = .error (.CosmosSdk r.check_tx.toChainResponse)) ∧
    (r.check_tx.code.is_err = false → r.deliver_tx.code.is_err = true →
      send_tx (.ok r) = .error (.CosmosSdk r.deliver_tx.toChainResponse)) ∧
    (send_tx (.ok r) = .ok r ↔
      r.check_tx.code.is_err = false ∧ r.deliver_tx.code.is_err = false) ∧
    (∀ r0, send_tx (.ok r) = .ok r0 → r0 = r) := by
  unfold send_tx
  cases hc : r.check_tx.code.is_err <;> cases hd : r.deliver_tx.code.is_err <;>
    simp [hc, hd]

/-- C5 witness: a non-OK pre-check code is reported as a `CosmosSdk`
error carrying the check-phase response. -/
theorem send_tx_two_phase_witness :
    errTx.code.is_err = true ∧
    send_tx (.ok { check_tx := errTx, deliver_tx := okTx }) =
      .error (.CosmosSdk errTx.toChainResponse) :=
  ⟨rfl, (send_tx_two_phase { check_tx := errTx, deliver_tx := okTx }).1 rfl⟩

set_option maxRecDepth 4000 in
/-- C6 counterexample: at `gas_used = 100`, `gas_adjustment = 1`,
`gas_prices = 0.07` the program's f64 arithmetic resolves the fee amount
to 8 (the double nearest 0.07 lies above it, so the product exceeds 7
and the ceil rounds up), while the claimed exact formula
`ceil(gas_limit * gas_price)` gives `ceil(100 * 0.07) = 7`. -/
theorem simulate_gas_fee_ideal_counterexample :
    (simulate_gas_fee 100 1 (7 / 100) "ucosm").amount =
      [{ denom := "ucosm", amount := 8 }] ∧
    (simulate_gas_fee_spec_model 100 1 (7 / 100) "ucosm").amount =
      [{ denom := "ucosm", amount := 7 }] ∧
    (simulate_gas_fee 100 1 (7 / 100) "ucosm").amount ≠
      (simulate_gas_fee_spec_model 100 1 (7 / 100) "ucosm").amount := by
  have h1 : (simulate_gas_fee 100 1 (7 / 100) "ucosm").amount =
      [{ denom := "ucosm", amount := 8 }] := by
    simp only [simulate_gas_fee, Fee.from_amount_and_gas, List.cons.injEq, Coin.mk.injEq,
      and_true, true_and]
    with_unfolding_all decide
  have h2 : (simulate_gas_fee_spec_model 100 1 (7 / 100) "ucosm").amount =
      [{ denom := "ucosm", amount := 7 }] := by
    simp only [simulate_gas_fee_spec_model, Fee.from_amount_and_gas, List.cons.injEq,
      Coin.mk.injEq, and_true, true_and]
    with_unfolding_all decide
  refine ⟨h1, h2, ?_⟩
  rw [h1, h2]
  decide

set_option maxRecDepth 4000 in
/-- C6 (amended): the resolved fee is computed by f64 arithmetic on the
stored double configuration values —
`gas_limit = ceil(double(gas_used) ⊗ adj)` and
`amount = ceil(gas_limit ⊗ price)` where `⊗` is correctly-rounded
double multiplication — which can exceed the exact
`ceil(gas_limit * gas_price)` formula by one unit; at the claim's own
instance `gas_used = 100000`, `gas_adjustment = 1.5`,
`gas_prices = 0.025` the f64 product rounds down to exactly 3750, so the
result is still `gas_limit = 150000` and `amount = 3750`. -/
theorem simulate_gas_fee_f64_spec :
    (∀ (g : Nat) (adj price : Rat) (denom : String),
      (simulate_gas_fee g adj price denom).gas_limit =
        (Int.ceil (roundDouble (roundDouble (g : Rat) * roundDouble adj))).toNat ∧
      (simulate_gas_fee g adj price denom).amount =
        [{ denom := denom,
           amount := (Int.ceil (roundDouble
             (((Int.ceil (roundDouble (roundDouble (g : Rat) * roundDouble adj)) : Int) : Rat) *
               roundDouble price))).toNat }]) ∧
    (simulate_gas_fee 100000 (3 / 2) (1 / 40) "ucosm").gas_limit = 150000 ∧
    (simulate_gas_fee 100000 (3 / 2) (1 / 40) "ucosm").amount =
      [{ denom := "ucosm", amount := 3750 }] := by
  refine ⟨fun g adj price denom => ⟨?_, ?_⟩, ?_, ?_⟩
  · simp [simulate_gas_fee, Fee.from_amount_and_gas, Int.ceil_intCast]
  · simp [simulate_gas_fee, Fee.from_amount_and_gas]
  · with_unfolding_all decide
  · simp only [simulate_gas_fee, Fee.from_amount_and_gas, List.cons.injEq, Coin.mk.injEq,
      and_true, true_and]
    with_unfolding_all decide

/-- C1: when the tracker lacks the state an operation requires (a code id
for instantiate, an address for execute/query/migrate), the operation
fails with that `ContractMapError`, leaves tracker and profiler
untouched, and issues zero chain-client calls. -/
theorem failfast_no_network (m : ContractMap) (client : CosmWasmClientModel)
    (gp : Option GasProfiler) (name op_name : String)
    (msg_json : Except String (List Nat)) (loc : CallLoc) (new_code_id : Nat) :
    (∀ e, code_id m name = .error e →
      internal_instantiate m client gp name op_name msg_json loc =
        (.error (.ContractMapE e), m, gp, [])) ∧
    (∀ e, address m name = .error e →
      internal_execute m client gp name op_name msg_json loc =
        (.error (.ContractMapE e), m, gp, []) ∧
      internal_query m client name msg_json = (.error (.ContractMapE e), []) ∧
      internal_migrate m client gp name new_code_id op_name msg_json loc =
        (.error (.ContractMapE e), m, gp, [])) := by
  constructor
  · intro e he
    simp [internal_instantiate, he]
  · intro e he
    exact ⟨by simp [internal_execute, he], by simp [internal_query, he],
           by simp [internal_migrate, he]⟩

/-- C1 witness: instantiating an unregistered name fails with
`NotStored` and records zero network calls. -/
theorem failfast_no_network_witness :
    code_id ([] : ContractMap) "cw_test" = .error (.NotStored "cw_test") ∧
    internal_instantiate [] failingClient none "cw_test" "init" (.ok []) sampleLoc =
      (.error (.ContractMapE (.NotStored "cw_test")), [], none, []) :=
  ⟨rfl,
   (failfast_no_network [] failingClient none "cw_test" "init" (.ok []) sampleLoc 0).1
     (.NotStored "cw_test") rfl⟩

/-- C7: when the chain client rejects an instantiate or migrate call, the
operation propagates the client error and the `ContractMap` is returned
exactly as it was: no address is added on a failed instantiate and no
code id is re-registered on a failed migrate. -/
theorem client_error_leaves_map (m : ContractMap) (client : CosmWasmClientModel)
    (gp : Option GasProfiler) (name op_name : String) (payload : List Nat)
    (loc : CallLoc) (cid new_code_id : Nat) (addr : String) (ce : ClientError) :
    (code_id m name = .ok cid →
      client.instantiate cid payload = .error ce →
      internal_instantiate m client gp name op_name (.ok payload) loc =
        (.error (.ClientE ce), m, gp, [.instantiateCall cid payload])) ∧
    (address m name = .ok addr →
      client.migrate addr new_code_id payload = .error ce →
      internal_migrate m client gp name new_code_id op_name (.ok payload) loc =
        (.error (.ClientE ce), m, gp, [.migrateCall addr new_code_id payload])) := by
  constructor
  · intro h1 h2
    simp [internal_instantiate, h1, h2]
  · intro h1 h2
    simp [internal_migrate, h1, h2]

/-- C7 witness: a chain rejection during instantiate propagates the
client error and leaves the deployed-contract map unchanged. -/
theorem client_error_leaves_map_witness :
    code_id sampleDeployMap "cw_test" = .ok 1337 ∧
    internal_instantiate sampleDeployMap failingClient none "cw_test" "init"
        (.ok []) sampleLoc =
      (.error (.ClientE (.Rpc "down")), sampleDeployMap, none, [.instantiateCall 1337 []]) :=
  ⟨rfl,
   (client_error_leaves_map sampleDeployMap failingClient none "cw_test" "init" []
      sampleLoc 1337 0 "addr1" (.Rpc "down")).1 rfl rfl⟩

/-- C8: `find_event` scans the delivered event list linearly and returns
the first event (in array order) whose type string equals the given
string, and `none` when no event has that type. -/
theorem find_event_first_match (res : TxCommitResponse) (key_name : String) :
    (find_event res key_name = none ↔
      ∀ e ∈ res.deliver_tx.events, e.type_str ≠ key_name) ∧
    (∀ ev, find_event res key_name = some ev ↔
      ev.type_str = key_name ∧
      ∃ pre post, res.deliver_tx.events = pre ++ ev :: post ∧
        ∀ e ∈ pre, e.type_str ≠ key_name) := by
  exact ⟨findEventList_none_iff res.deliver_tx.events key_name,
         fun ev => findEventList_some_iff res.deliver_tx.events key_name ev⟩

/-- C8 witness: on a delivered event list containing one `store_code`
event, `find_event` returns it. -/
theorem find_event_first_match_witness :
    find_event { check_tx := okTx, deliver_tx := { okTx with events := [storeEvent] } }
      "store_code" = some storeEvent :=
  ((find_event_first_match
      { check_tx := okTx, deliver_tx := { okTx with events := [storeEvent] } }
      "store_code").2 storeEvent).mpr
    ⟨rfl, [], [], rfl, by simp⟩

/-- C9: the store/instantiate identifier extraction has no error value:
a missing expected event, a missing attribute, or an unparseable
`code_id` value makes the operation panic (modelled as `none`), and
under the precondition that the expected event and attribute are present
(and, for store, the value parses as a `u64`) the chain-assigned
identifier is extracted. -/
theorem event_extraction_spec (tx : TxCommitResponse) :
    (find_event tx "store_code" = none → store_extract_code_id tx = none) ∧
    (∀ ev, find_event tx "store_code" = some ev →
      findAttr ev.attributes "code_id" = none → store_extract_code_id tx = none) ∧
    (∀ ev a, find_event tx "store_code" = some ev →
      findAttr ev.attributes "code_id" = some a → parse_u64 a.value = none →
      store_extract_code_id tx = none) ∧
    (∀ ev a n_val, find_event tx "store_code" = some ev →
      findAttr ev.attributes "code_id" = some a → parse_u64 a.value = some n_val →
      store_extract_code_id tx = some n_val) ∧
    (find_event tx "instantiate" = none → instantiate_extract_address tx = none) ∧
    (∀ ev, find_event tx "instantiate" = some ev →
      findAttr ev.attributes "_contract_address" = none →
      instantiate_extract_address tx = none) ∧
    (∀ ev a, find_event tx "instantiate" = some ev →
      findAttr ev.attributes "_contract_address" = some a →
      instantiate_extract_address tx = some a.value) := by
  refine ⟨?_, ?_, ?_, ?_, ?_, ?_, ?_⟩ <;> intros <;>
    simp_all [store_extract_code_id, instantiate_extract_address]

/-- C9 witness: with a `store_code` event carrying `code_id = "42"`, the
store extraction yields 42. -/
theorem event_extraction_spec_witness :
    store_extract_code_id
      { check_tx := okTx, deliver_tx := { okTx with events := [storeEvent] } } = some 42 :=
  (event_extraction_spec
      { check_tx := okTx, deliver_tx := { okTx with events := [storeEvent] } }).2.2.2.1
    storeEvent { key := "code_id", value := "42" } 42 rfl rfl (by decide)

/-- C10: with `n = 0` and `is_first_block = false`, `poll_for_n_blocks`
succeeds immediately after a single `latest_block` query — the captured
height already satisfies the target `H + 0` so the sleep-and-recheck
loop is never entered, whatever later queries would return. -/
theorem poll_zero_blocks (healthy : Except RpcErrorDetail Unit) (h : Nat)
    (rest : List LatestBlockResult) :
    poll_for_n_blocks healthy (.ok h :: rest) 0 false = .ok 1 := by
  rw [poll_for_n_blocks.eq_def]
  simp only [Bool.false_eq_true, if_false, pollStart]
  rw [pollLoop.eq_def]
  simp

end CosmOrc
